import Mathlib

/-!
Verification of the DCN+ encoder/decoder module (question_answering/dcn_plus.py).

Shallow embedding conventions:
  - A rank-3 tensor of shape [N, L1, L2] is a function Fin N → Fin L1 → Fin L2 → α.
  - Finite float values are modelled as rationals ℚ (exact arithmetic).
  - The mask value float(-inf) used by maybe_mask_affinity is modelled by the
    scalar domain MFloat = finite value | negInf.
  - The float exponential is an abstract strictly positive function exp : ℚ → ℚ
    passed as a parameter; exp(-inf) = 0 is encoded by expM.
  - tf.nn.softmax(A, dim=1) normalises each axis-1 column by the sum of
    exponentials; when every entry of a column is -inf the float computation
    yields NaN for the whole column, modelled by the scalar domain
    NFloat = finite value | nan, where nan absorbs under + and *.
  - tf.nn.bidirectional_dynamic_rnn is modelled over an abstract recurrent cell
    (a step function on an abstract state type): outputs past sequence_length
    are zero and the state is frozen there; the backward pass is the forward
    pass over the reverse_sequence of the input, reversed again.
  - tf.layers.dense(x, units, activation) is a position-wise affine map
    followed by the activation.
  - For decode, where the claims are about output shapes, the shape semantics
    of tf.layers.dense(x, 1) and tf.squeeze are embedded at the level of
    shape lists (tf.squeeze with no axis removes every dimension of size 1).
-/

/-- Rank-3 tensor with entries in α. -/
abbrev Tens3 (N L1 L2 : ℕ) (α : Type) := Fin N → Fin L1 → Fin L2 → α

/-- Rank-3 tensor of finite floats (modelled as rationals). -/
abbrev T3 (N L1 L2 : ℕ) := Tens3 N L1 L2 ℚ

/-- Scalar domain for masked affinities: a finite float or float(-inf). -/
inductive MFloat : Type
  | val (x : ℚ)
  | negInf

/-- Scalar domain after softmax: a finite float or NaN. -/
inductive NFloat : Type
  | val (x : ℚ)
  | nan

/-- Float addition on the post-softmax domain: NaN absorbs. -/
def Fadd : NFloat → NFloat → NFloat
  | NFloat.val x, NFloat.val y => NFloat.val (x + y)
  | _, _ => NFloat.nan

/-- Float multiplication on the post-softmax domain: NaN absorbs.
(Infinities never arise post-softmax, so only finite values and NaN occur.) -/
def Fmul : NFloat → NFloat → NFloat
  | NFloat.val x, NFloat.val y => NFloat.val (x * y)
  | _, _ => NFloat.nan

instance : Zero NFloat := ⟨NFloat.val 0⟩

instance : Add NFloat := ⟨Fadd⟩

theorem Fadd_assoc (a b c : NFloat) : a + b + c = a + (b + c) := by
  cases a <;> cases b <;> cases c <;>
    first
      | rfl
      | exact congrArg NFloat.val (add_assoc _ _ _)

theorem Fadd_comm (a b : NFloat) : a + b = b + a := by
  cases a <;> cases b <;>
    first
      | rfl
      | exact congrArg NFloat.val (add_comm _ _)

theorem Fadd_zero (a : NFloat) : a + 0 = a := by
  cases a <;>
    first
      | rfl
      | exact congrArg NFloat.val (add_zero _)

theorem Fzero_add (a : NFloat) : 0 + a = a := by
  cases a <;>
    first
      | rfl
      | exact congrArg NFloat.val (zero_add _)

instance : AddCommMonoid NFloat where
  add_assoc := Fadd_assoc
  add_comm := Fadd_comm
  add_zero := Fadd_zero
  zero_add := Fzero_add
  nsmul := nsmulRec

/-- Embedding of finite floats into the post-softmax domain, as an additive
monoid homomorphism (used to pull sums through NFloat.val). -/
def valHom : ℚ →+ NFloat := ⟨⟨NFloat.val, rfl⟩, fun _ _ => rfl⟩

theorem Fadd_nan_left (a : NFloat) : NFloat.nan + a = NFloat.nan := by
  cases a <;> rfl

theorem Fmul_nan_right (a : NFloat) : Fmul a NFloat.nan = NFloat.nan := by
  cases a <;> rfl

theorem Fsum_eq_nan {k : ℕ} (f : Fin k → NFloat) (i : Fin k)
    (h : f i = NFloat.nan) : (∑ j : Fin k, f j) = NFloat.nan := by
  rw [← Finset.add_sum_erase Finset.univ f (Finset.mem_univ i), h, Fadd_nan_left]

/-- maybe_mask_affinity (dcn_plus.py lines 109-128).
tf.sequence_mask(sequence_length, maxlen=L1) is true at [n, i] iff
i < sequence_length[n]; the mask is tiled along axis 2 and tf.where keeps
affinity where the mask is true, affinity_mask_value elsewhere.  The Python
default affinity_mask_value=float(-inf) is passed explicitly at every call
site of this embedding.  If sequence_length is None the input is returned
unmodified. -/
def maybe_mask_affinity {α : Type} {N L1 L2 : ℕ}
    (affinity : Tens3 N L1 L2 α) (sequence_length : Option (Fin N → ℕ))
    (affinity_mask_value : α) : Tens3 N L1 L2 α :=
  match sequence_length with
  | none => affinity
  | some len => fun n i j =>
      if (i : ℕ) < len n then affinity n i j else affinity_mask_value

/-- Exponential on the masked domain: exp(-inf) = 0 in float arithmetic. -/
def expM (exp : ℚ → ℚ) : MFloat → ℚ
  | MFloat.val x => exp x
  | MFloat.negInf => 0

/-- tf.nn.softmax(A, dim=1): each axis-1 column is normalised by the sum of
exponentials over that column.  When the normaliser is zero (every entry of
the column is -inf, since exp is strictly positive on finite values) the
float computation exp(x - max)/sum is NaN for every entry of the column. -/
def softmax_dim1 {N L1 L2 : ℕ} (exp : ℚ → ℚ)
    (A : Tens3 N L1 L2 MFloat) : Tens3 N L1 L2 NFloat :=
  fun n i j =>
    if (∑ k : Fin L1, expM exp (A n k j)) = 0 then NFloat.nan
    else NFloat.val (expM exp (A n i j) / ∑ k : Fin L1, expM exp (A n k j))

/-- tf.transpose(A, [0, 2, 1]). -/
def transpose021 {α : Type} {N L1 L2 : ℕ}
    (A : Tens3 N L1 L2 α) : Tens3 N L2 L1 α :=
  fun n j i => A n i j

/-- unmasked_affinity (dcn_plus.py line 177):
einsum with subscripts ndh,nqh->ndq applied to (document, query). -/
def unmasked_affinity {N D Q H2 : ℕ}
    (document : T3 N D H2) (query : T3 N Q H2) : Tens3 N D Q ℚ :=
  fun n d q => ∑ h : Fin H2, document n d h * query n q h

/-- affinity (dcn_plus.py line 178): the unmasked affinity masked along the
document axis with document_length; finite floats embed via MFloat.val and
the Python default mask value float(-inf) is MFloat.negInf. -/
def affinity {N D Q H2 : ℕ} (document : T3 N D H2) (query : T3 N Q H2)
    (document_length : Fin N → ℕ) : Tens3 N D Q MFloat :=
  maybe_mask_affinity
    (fun n d q => MFloat.val (unmasked_affinity document query n d q))
    (some document_length) MFloat.negInf

/-- attention_p (dcn_plus.py line 179): tf.nn.softmax(affinity, dim=1). -/
def attention_p {N D Q H2 : ℕ} (exp : ℚ → ℚ) (document : T3 N D H2)
    (query : T3 N Q H2) (document_length : Fin N → ℕ) : Tens3 N D Q NFloat :=
  softmax_dim1 exp (affinity document query document_length)

/-- affinity_t (dcn_plus.py line 180): the transposed unmasked affinity
masked along the query axis with query_length. -/
def affinity_t {N D Q H2 : ℕ} (document : T3 N D H2) (query : T3 N Q H2)
    (query_length : Fin N → ℕ) : Tens3 N Q D MFloat :=
  maybe_mask_affinity
    (transpose021 (fun n d q => MFloat.val (unmasked_affinity document query n d q)))
    (some query_length) MFloat.negInf

/-- attention_q (dcn_plus.py line 181): tf.nn.softmax(affinity_t, dim=1). -/
def attention_q {N D Q H2 : ℕ} (exp : ℚ → ℚ) (document : T3 N D H2)
    (query : T3 N Q H2) (query_length : Fin N → ℕ) : Tens3 N Q D NFloat :=
  softmax_dim1 exp (affinity_t document query query_length)

/-- summary_q (dcn_plus.py line 182):
einsum with subscripts ndh,ndq->nqh applied to (document, attention_p). -/
def summary_q {N D Q H2 : ℕ} (exp : ℚ → ℚ) (document : T3 N D H2)
    (query : T3 N Q H2) (document_length : Fin N → ℕ) : Tens3 N Q H2 NFloat :=
  fun n q h =>
    ∑ d : Fin D, Fmul (NFloat.val (document n d h))
      (attention_p exp document query document_length n d q)

/-- summary_d (dcn_plus.py line 183):
einsum with subscripts nqh,nqd->ndh applied to (query, attention_q). -/
def summary_d {N D Q H2 : ℕ} (exp : ℚ → ℚ) (document : T3 N D H2)
    (query : T3 N Q H2) (query_length : Fin N → ℕ) : Tens3 N D H2 NFloat :=
  fun n d h =>
    ∑ q : Fin Q, Fmul (NFloat.val (query n q h))
      (attention_q exp document query query_length n q d)

/-- coattention_d (dcn_plus.py line 184):
einsum with subscripts nqh,nqd->ndh applied to (summary_q, attention_q). -/
def coattention_d {N D Q H2 : ℕ} (exp : ℚ → ℚ) (document : T3 N D H2)
    (query : T3 N Q H2) (query_length document_length : Fin N → ℕ) :
    Tens3 N D H2 NFloat :=
  fun n d h =>
    ∑ q : Fin Q, Fmul (summary_q exp document query document_length n q h)
      (attention_q exp document query query_length n q d)

/-- add_sentinel (dcn_plus.py lines 131-133): the body is a bare pass, so the
Python function returns None and performs no computation. -/
def add_sentinel {α : Type} (encoding : α) : Option α := none

/-- remove_sentinel (dcn_plus.py lines 136-137): the body is a bare pass, so
the Python function returns None and performs no computation. -/
def remove_sentinel {α : Type} (encoding : α) : Option α := none

/-- coattention (dcn_plus.py lines 140-185): computes the affinity, the two
masked axis-1 softmaxes and the three einsum outputs, and returns the triple
(summary_q, summary_d, coattention_d).  The sentinel parameter is accepted
(Python default False) but never used in the body. -/
def coattention {N D Q H2 : ℕ} (exp : ℚ → ℚ) (query : T3 N Q H2)
    (query_length : Fin N → ℕ) (document : T3 N D H2)
    (document_length : Fin N → ℕ) (sentinel : Bool) :
    Tens3 N Q H2 NFloat × Tens3 N D H2 NFloat × Tens3 N D H2 NFloat :=
  (summary_q exp document query document_length,
   summary_d exp document query query_length,
   coattention_d exp document query query_length document_length)

/-- A recurrent cell with state type St, input feature size R and output
feature size H: one step maps a state and an input vector to the next state
and the output vector.  This stands for a built tf.contrib.rnn cell object;
its trainable parameters are captured inside the function, so two call sites
receiving the same Cell value share parameters. -/
abbrev Cell (St : Type) (R H : ℕ) := St → (Fin R → ℚ) → St × (Fin H → ℚ)

/-- State of tf.nn.dynamic_rnn after t steps with sequence length len:
the cell fires at steps before len and the state is copied through at and
after len. -/
def rnnState {St : Type} {R H : ℕ} (cell : Cell St R H) (s0 : St)
    (xs : ℕ → Fin R → ℚ) (len : ℕ) : ℕ → St
  | 0 => s0
  | t + 1 =>
      if t < len then (cell (rnnState cell s0 xs len t) (xs t)).1
      else rnnState cell s0 xs len t

/-- Output of tf.nn.dynamic_rnn at step t: the cell output before len and
the zero vector at padding steps at and after len. -/
def rnnOutput {St : Type} {R H : ℕ} (cell : Cell St R H) (s0 : St)
    (xs : ℕ → Fin R → ℚ) (len : ℕ) (t : ℕ) : Fin H → ℚ :=
  if t < len then (cell (rnnState cell s0 xs len t) (xs t)).2 else fun _ => 0

/-- tf.nn.dynamic_rnn over a batch: per-batch-element length-aware unrolling
(the time index is extended beyond the tensor bound by zero input vectors; it
is never read there). -/
def dynamic_rnn {St : Type} {N T R H : ℕ} (cell : Cell St R H) (s0 : St)
    (inputs : T3 N T R) (sequence_length : Fin N → ℕ) : T3 N T H :=
  fun n t h =>
    rnnOutput cell s0
      (fun i => if hi : i < T then inputs n ⟨i, hi⟩ else fun _ => 0)
      (sequence_length n) (t : ℕ) h

/-- tf.reverse_sequence along the time axis: the first len entries of each
batch element are reversed, the rest are left in place.  (TF requires
len ≤ T; outside that precondition the entry is left in place.) -/
def reverse_sequence {α : Type} {N T R : ℕ} (inputs : Tens3 N T R α)
    (sequence_length : Fin N → ℕ) : Tens3 N T R α :=
  fun n t r =>
    if h : (t : ℕ) < sequence_length n ∧ sequence_length n - 1 - (t : ℕ) < T
    then inputs n ⟨sequence_length n - 1 - (t : ℕ), h.2⟩ r
    else inputs n t r

/-- tf.nn.bidirectional_dynamic_rnn: the forward output together with the
backward output, where the backward pass runs the backward cell over the
time-reversed input and reverses its output back. -/
def bidirectional_dynamic_rnn {St : Type} {N T R H : ℕ}
    (cell_fw : Cell St R H) (s0_fw : St) (cell_bw : Cell St R H) (s0_bw : St)
    (inputs : T3 N T R) (sequence_length : Fin N → ℕ) :
    T3 N T H × T3 N T H :=
  (dynamic_rnn cell_fw s0_fw inputs sequence_length,
   reverse_sequence
     (dynamic_rnn cell_bw s0_bw (reverse_sequence inputs sequence_length)
       sequence_length)
     sequence_length)

/-- tf.concat(-, 2) of two rank-3 tensors along the feature axis. -/
def concatFeat {N T H1 H2 : ℕ} (A : T3 N T H1) (B : T3 N T H2) :
    T3 N T (H1 + H2) :=
  fun n t k =>
    if h : (k : ℕ) < H1 then A n t ⟨k, h⟩
    else B n t ⟨(k : ℕ) - H1, by omega⟩

/-- tf.layers.dense(x, U, activation=act) applied position-wise to a rank-3
tensor: an affine map on the feature axis followed by the activation. -/
def denseAct {N T H U : ℕ} (act : ℚ → ℚ) (W : Fin H → Fin U → ℚ)
    (b : Fin U → ℚ) (x : T3 N T H) : T3 N T U :=
  fun n t u => act ((∑ j : Fin H, x n t j * W j u) + b u)

/-- query_document_encoder (dcn_plus.py lines 69-106).  The same cell_fw and
cell_bw are passed to both bidirectional passes (shared parameters).  The
query encoding additionally passes through tf.layers.dense with tanh
activation and units = tf.shape(query_encoding)[2] = H + H; tanhA abstracts
tf.tanh and (W, b) are the dense layer parameters.  The document encoding is
returned as the bare concatenation of the two directions. -/
def query_document_encoder {St : Type} {N Q D R H : ℕ}
    (cell_fw : Cell St R H) (s0_fw : St) (cell_bw : Cell St R H) (s0_bw : St)
    (tanhA : ℚ → ℚ) (W : Fin (H + H) → Fin (H + H) → ℚ) (b : Fin (H + H) → ℚ)
    (query : T3 N Q R) (query_length : Fin N → ℕ)
    (document : T3 N D R) (document_length : Fin N → ℕ) :
    T3 N Q (H + H) × T3 N D (H + H) :=
  let query_fw_bw :=
    bidirectional_dynamic_rnn cell_fw s0_fw cell_bw s0_bw query query_length
  let query_encoding :=
    denseAct tanhA W b (concatFeat query_fw_bw.1 query_fw_bw.2)
  let document_fw_bw :=
    bidirectional_dynamic_rnn cell_fw s0_fw cell_bw s0_bw document
      document_length
  let document_encoding := concatFeat document_fw_bw.1 document_fw_bw.2
  (query_encoding, document_encoding)

/-- Shape semantics of tf.layers.dense(x, units): the last axis is replaced
by units. -/
def dense_shape (s : List ℕ) (units : ℕ) : List ℕ :=
  s.dropLast ++ [units]

/-- Shape semantics of tf.squeeze with no axis argument: every dimension of
size 1 is removed. -/
def squeeze_shape (s : List ℕ) : List ℕ :=
  s.filter (fun d => d ≠ 1)

/-- decode (dcn_plus.py lines 188-209) at the shape level: each logit branch
applies tf.layers.dense(encoding, 1) to the [N, D, Fdim] encoding and then
tf.squeeze, so the logit shape is [N, D, 1] with every size-1 dimension
removed. -/
def decode_logit_shape (N D Fdim : ℕ) : List ℕ :=
  squeeze_shape (dense_shape [N, D, Fdim] 1)

/-- decode (dcn_plus.py lines 188-209) returns (start_logit, end_logit);
the two branches have identical shape behaviour. -/
def decode_shapes (N D Fdim : ℕ) : List ℕ × List ℕ :=
  (decode_logit_shape N D Fdim, decode_logit_shape N D Fdim)

theorem expM_nonneg (exp : ℚ → ℚ) (hexp : ∀ x : ℚ, 0 < exp x) (m : MFloat) :
    0 ≤ expM exp m := by
  cases m with
  | val x => exact (hexp x).le
  | negInf => exact le_refl 0

theorem affinity_unmasked {N D Q H2 : ℕ} (document : T3 N D H2)
    (query : T3 N Q H2) (document_length : Fin N → ℕ) (n : Fin N) (d : Fin D)
    (q : Fin Q) (h : (d : ℕ) < document_length n) :
    affinity document query document_length n d q
      = MFloat.val (unmasked_affinity document query n d q) := by
  simp [affinity, maybe_mask_affinity, h]

theorem affinity_masked {N D Q H2 : ℕ} (document : T3 N D H2)
    (query : T3 N Q H2) (document_length : Fin N → ℕ) (n : Fin N) (d : Fin D)
    (q : Fin Q) (h : document_length n ≤ (d : ℕ)) :
    affinity document query document_length n d q = MFloat.negInf := by
  simp [affinity, maybe_mask_affinity, Nat.not_lt.mpr h]

theorem affinity_t_unmasked {N D Q H2 : ℕ} (document : T3 N D H2)
    (query : T3 N Q H2) (query_length : Fin N → ℕ) (n : Fin N) (q : Fin Q)
    (d : Fin D) (h : (q : ℕ) < query_length n) :
    affinity_t document query query_length n q d
      = MFloat.val (unmasked_affinity document query n d q) := by
  simp [affinity_t, maybe_mask_affinity, transpose021, h]

theorem affinity_t_masked {N D Q H2 : ℕ} (document : T3 N D H2)
    (query : T3 N Q H2) (query_length : Fin N → ℕ) (n : Fin N) (q : Fin Q)
    (d : Fin D) (h : query_length n ≤ (q : ℕ)) :
    affinity_t document query query_length n q d = MFloat.negInf := by
  simp [affinity_t, maybe_mask_affinity, Nat.not_lt.mpr h]

theorem softmax_dim1_masked {N L1 L2 : ℕ} (exp : ℚ → ℚ)
    (A : Tens3 N L1 L2 MFloat) (n : Fin N) (i : Fin L1) (j : Fin L2)
    (hm : A n i j = MFloat.negInf)
    (hs : (∑ k : Fin L1, expM exp (A n k j)) ≠ 0) :
    softmax_dim1 exp A n i j = NFloat.val 0 := by
  simp only [softmax_dim1]
  rw [if_neg hs, hm]
  simp [expM]

theorem softmax_dim1_nan {N L1 L2 : ℕ} (exp : ℚ → ℚ)
    (A : Tens3 N L1 L2 MFloat) (n : Fin N) (j : Fin L2)
    (hz : (∑ k : Fin L1, expM exp (A n k j)) = 0) (i : Fin L1) :
    softmax_dim1 exp A n i j = NFloat.nan := by
  simp only [softmax_dim1]
  rw [if_pos hz]

theorem softmax_dim1_col_sum {N L1 L2 : ℕ} (exp : ℚ → ℚ)
    (A : Tens3 N L1 L2 MFloat) (n : Fin N) (j : Fin L2)
    (hs : (∑ k : Fin L1, expM exp (A n k j)) ≠ 0) :
    (∑ i : Fin L1, softmax_dim1 exp A n i j) = NFloat.val 1 := by
  have h1 : ∀ i : Fin L1, softmax_dim1 exp A n i j
      = valHom (expM exp (A n i j) / ∑ k : Fin L1, expM exp (A n k j)) := by
    intro i
    simp only [softmax_dim1]
    rw [if_neg hs]
    rfl
  calc (∑ i : Fin L1, softmax_dim1 exp A n i j)
      = ∑ i : Fin L1,
          valHom (expM exp (A n i j) / ∑ k : Fin L1, expM exp (A n k j)) :=
        Finset.sum_congr rfl (fun i _ => h1 i)
    _ = valHom (∑ i : Fin L1,
          expM exp (A n i j) / ∑ k : Fin L1, expM exp (A n k j)) :=
        (map_sum valHom _ _).symm
    _ = valHom ((∑ i : Fin L1, expM exp (A n i j))
          / ∑ k : Fin L1, expM exp (A n k j)) := by
        rw [Finset.sum_div]
    _ = NFloat.val 1 := by
        rw [div_self hs]
        rfl

theorem attention_p_denom_pos {N D Q H2 : ℕ} (exp : ℚ → ℚ)
    (hexp : ∀ x : ℚ, 0 < exp x) (document : T3 N D H2) (query : T3 N Q H2)
    (document_length : Fin N → ℕ) (n : Fin N) (q : Fin Q) (hD : 0 < D)
    (hdl : 1 ≤ document_length n) :
    0 < ∑ k : Fin D, expM exp (affinity document query document_length n k q) := by
  apply Finset.sum_pos'
  · intro i _
    exact expM_nonneg exp hexp _
  · refine ⟨⟨0, hD⟩, Finset.mem_univ _, ?_⟩
    rw [affinity_unmasked document query document_length n ⟨0, hD⟩ q hdl]
    exact hexp _

theorem attention_q_denom_pos {N D Q H2 : ℕ} (exp : ℚ → ℚ)
    (hexp : ∀ x : ℚ, 0 < exp x) (document : T3 N D H2) (query : T3 N Q H2)
    (query_length : Fin N → ℕ) (n : Fin N) (d : Fin D) (hQ : 0 < Q)
    (hql : 1 ≤ query_length n) :
    0 < ∑ k : Fin Q, expM exp (affinity_t document query query_length n k d) := by
  apply Finset.sum_pos'
  · intro i _
    exact expM_nonneg exp hexp _
  · refine ⟨⟨0, hQ⟩, Finset.mem_univ _, ?_⟩
    rw [affinity_t_unmasked document query query_length n ⟨0, hQ⟩ d hql]
    exact hexp _

/-- C1: for every batch element n with 1 <= document_length n < D and every
query position q, the post-softmax attention weight attention_p n d q
computed inside coattention is exactly NFloat.val 0 for every document
position d >= document_length n: masking with -inf before the axis-1 softmax
gives exactly zero weight on padding positions. -/
theorem C1_attention_p_zero_on_padding {N D Q H2 : ℕ} (exp : ℚ → ℚ)
    (hexp : ∀ x : ℚ, 0 < exp x) (query : T3 N Q H2) (document : T3 N D H2)
    (document_length : Fin N → ℕ) (n : Fin N) (d : Fin D) (q : Fin Q)
    (hL1 : 1 ≤ document_length n) (hLD : document_length n < D)
    (hd : document_length n ≤ (d : ℕ)) :
    attention_p exp document query document_length n d q = NFloat.val 0 := by
  have hD : 0 < D := d.pos
  have hs :=
    attention_p_denom_pos exp hexp document query document_length n q hD hL1
  exact softmax_dim1_masked exp _ n d q
    (affinity_masked document query document_length n d q hd) (ne_of_gt hs)

/-- C1 witness: concrete instance with N = 1, D = 2, Q = 1, H2 = 1,
document_length = 1, at masked document position d = 1. -/
theorem C1_attention_p_zero_on_padding_witness :
    (∀ x : ℚ, 0 < (fun _ : ℚ => (1 : ℚ)) x)
  ∧ 1 ≤ (fun _ : Fin 1 => 1) (0 : Fin 1)
  ∧ (fun _ : Fin 1 => 1) (0 : Fin 1) < 2
  ∧ (fun _ : Fin 1 => 1) (0 : Fin 1) ≤ (((1 : Fin 2)) : ℕ)
  ∧ @attention_p 1 2 1 1 (fun _ : ℚ => 1) (fun _ _ _ => 0) (fun _ _ _ => 0)
      (fun _ => 1) 0 1 0 = NFloat.val 0 :=
  ⟨fun _ => one_pos, le_refl 1, one_lt_two, by decide,
    C1_attention_p_zero_on_padding (fun _ : ℚ => 1) (fun _ => one_pos)
      (fun _ _ _ => 0) (fun _ _ _ => 0) (fun _ => 1) 0 1 0 (le_refl 1)
      one_lt_two (by decide)⟩

/-- C3: maybe_mask_affinity leaves entries at positions i < len n unchanged
and replaces entries at positions i >= len n along axis 1 by the mask value
(float(-inf) by Python default, passed here as the explicit argument v), and
returns its input unmodified when the length argument is None. -/
theorem C3_maybe_mask_affinity_spec {α : Type} {N L1 L2 : ℕ}
    (A : Tens3 N L1 L2 α) (len : Fin N → ℕ) (v : α) :
    (∀ (n : Fin N) (i : Fin L1) (j : Fin L2),
        maybe_mask_affinity A (some len) v n i j
          = if (i : ℕ) < len n then A n i j else v)
  ∧ maybe_mask_affinity A none v = A := by
  constructor
  · intro n i j
    rfl
  · rfl

/-- C7: when document_length n = 0 the masking marks the whole document axis
of batch element n invalid (every affinity entry is -inf), the softmax
normaliser over that all-masked axis is zero so every attention_p entry of
that batch element is NaN, and the NaN propagates silently into every
summary_q entry of that batch element (no guard or fallback exists in
coattention). -/
theorem C7_zero_document_length_nan {N D Q H2 : ℕ} (exp : ℚ → ℚ)
    (query : T3 N Q H2) (document : T3 N D H2) (document_length : Fin N → ℕ)
    (n : Fin N) (h0 : document_length n = 0) (hD : 0 < D) :
    (∀ (d : Fin D) (q : Fin Q),
        affinity document query document_length n d q = MFloat.negInf)
  ∧ (∀ (d : Fin D) (q : Fin Q),
        attention_p exp document query document_length n d q = NFloat.nan)
  ∧ (∀ (q : Fin Q) (h : Fin H2),
        summary_q exp document query document_length n q h = NFloat.nan) := by
  have hmask : ∀ (d : Fin D) (q : Fin Q),
      affinity document query document_length n d q = MFloat.negInf := by
    intro d q
    exact affinity_masked document query document_length n d q
      (h0 ▸ Nat.zero_le _)
  have hz : ∀ q : Fin Q,
      (∑ k : Fin D, expM exp (affinity document query document_length n k q))
        = 0 := by
    intro q
    apply Finset.sum_eq_zero
    intro k _
    rw [hmask k q]
    rfl
  have hnan : ∀ (d : Fin D) (q : Fin Q),
      attention_p exp document query document_length n d q = NFloat.nan := by
    intro d q
    exact softmax_dim1_nan exp _ n q (hz q) d
  refine ⟨hmask, hnan, ?_⟩
  intro q h
  apply Fsum_eq_nan _ ⟨0, hD⟩
  rw [hnan ⟨0, hD⟩ q]
  exact Fmul_nan_right _

/-- C7 witness: concrete instance with N = 1, D = 1, Q = 1, H2 = 1 and
document_length = 0. -/
theorem C7_zero_document_length_nan_witness :
    (fun _ : Fin 1 => 0) (0 : Fin 1) = 0
  ∧ 0 < 1
  ∧ ((∀ (d : Fin 1) (q : Fin 1),
        @affinity 1 1 1 1 (fun _ _ _ => 0) (fun _ _ _ => 0) (fun _ => 0) 0 d q
          = MFloat.negInf)
    ∧ (∀ (d : Fin 1) (q : Fin 1),
        @attention_p 1 1 1 1 (fun _ : ℚ => 1) (fun _ _ _ => 0) (fun _ _ _ => 0)
          (fun _ => 0) 0 d q = NFloat.nan)
    ∧ (∀ (q : Fin 1) (h : Fin 1),
        @summary_q 1 1 1 1 (fun _ : ℚ => 1) (fun _ _ _ => 0) (fun _ _ _ => 0)
          (fun _ => 0) 0 q h = NFloat.nan)) :=
  ⟨rfl, one_pos,
    C7_zero_document_length_nan (fun _ : ℚ => 1) (fun _ _ _ => 0)
      (fun _ _ _ => 0) (fun _ => 0) 0 rfl one_pos⟩

/-- C8: for every batch element n with document_length n >= 1 (and a
nonempty document axis) the attention_p weights over the document axis sum
to exactly 1 for every query position, and symmetrically for attention_q
over the query axis when query_length n >= 1; the softmax is along axis 1
in both cases. -/
theorem C8_attention_columns_sum_to_one {N D Q H2 : ℕ} (exp : ℚ → ℚ)
    (hexp : ∀ x : ℚ, 0 < exp x) (query : T3 N Q H2)
    (query_length : Fin N → ℕ) (document : T3 N D H2)
    (document_length : Fin N → ℕ) (n : Fin N) :
    (0 < D → 1 ≤ document_length n → ∀ q : Fin Q,
        (∑ d : Fin D, attention_p exp document query document_length n d q)
          = NFloat.val 1)
  ∧ (0 < Q → 1 ≤ query_length n → ∀ d : Fin D,
        (∑ q : Fin Q, attention_q exp document query query_length n q d)
          = NFloat.val 1) := by
  constructor
  · intro hD hdl q
    exact softmax_dim1_col_sum exp _ n q
      (ne_of_gt (attention_p_denom_pos exp hexp document query document_length
        n q hD hdl))
  · intro hQ hql d
    exact softmax_dim1_col_sum exp _ n d
      (ne_of_gt (attention_q_denom_pos exp hexp document query query_length
        n d hQ hql))

/-- C8 witness: concrete instance with N = D = Q = H2 = 1 and both lengths
equal to 1; both inner hypotheses are discharged concretely. -/
theorem C8_attention_columns_sum_to_one_witness :
    (∀ x : ℚ, 0 < (fun _ : ℚ => (1 : ℚ)) x)
  ∧ (0 : ℕ) < 1
  ∧ 1 ≤ (fun _ : Fin 1 => 1) (0 : Fin 1)
  ∧ ((∑ d : Fin 1, @attention_p 1 1 1 1 (fun _ : ℚ => 1) (fun _ _ _ => 0)
        (fun _ _ _ => 0) (fun _ => 1) 0 d 0) = NFloat.val 1)
  ∧ ((∑ q : Fin 1, @attention_q 1 1 1 1 (fun _ : ℚ => 1) (fun _ _ _ => 0)
        (fun _ _ _ => 0) (fun _ => 1) 0 q 0) = NFloat.val 1) :=
  ⟨fun _ => one_pos, one_pos, le_refl 1,
    (C8_attention_columns_sum_to_one (fun _ : ℚ => 1) (fun _ => one_pos)
      (fun _ _ _ => 0) (fun _ => 1) (fun _ _ _ => 0) (fun _ => 1) 0).1
      one_pos (le_refl 1) 0,
    (C8_attention_columns_sum_to_one (fun _ : ℚ => 1) (fun _ => one_pos)
      (fun _ _ _ => 0) (fun _ => 1) (fun _ _ _ => 0) (fun _ => 1) 0).2
      one_pos (le_refl 1) 0⟩

/-- C2: coattention returns the triple (summary_q, summary_d, coattention_d)
with summary_q n q h equal to the sum over d of document n d h times
attention_p n d q, summary_d n d h equal to the sum over q of query n q h
times attention_q n q d, and coattention_d n d h equal to the sum over q of
summary_q n q h times attention_q n q d, where attention_p is the axis-1
softmax of the document-masked affinity and attention_q is the axis-1
softmax of the query-masked transposed affinity. -/
theorem C2_coattention_triple {N D Q H2 : ℕ} (exp : ℚ → ℚ)
    (query : T3 N Q H2) (query_length : Fin N → ℕ) (document : T3 N D H2)
    (document_length : Fin N → ℕ) (sentinel : Bool) :
    (∀ (n : Fin N) (q : Fin Q) (h : Fin H2),
      (coattention exp query query_length document document_length
          sentinel).1 n q h
        = ∑ d : Fin D, Fmul (NFloat.val (document n d h))
            (softmax_dim1 exp
              (maybe_mask_affinity
                (fun n d q =>
                  MFloat.val (unmasked_affinity document query n d q))
                (some document_length) MFloat.negInf) n d q))
  ∧ (∀ (n : Fin N) (d : Fin D) (h : Fin H2),
      (coattention exp query query_length document document_length
          sentinel).2.1 n d h
        = ∑ q : Fin Q, Fmul (NFloat.val (query n q h))
            (softmax_dim1 exp
              (maybe_mask_affinity
                (transpose021 (fun n d q =>
                  MFloat.val (unmasked_affinity document query n d q)))
                (some query_length) MFloat.negInf) n q d))
  ∧ (∀ (n : Fin N) (d : Fin D) (h : Fin H2),
      (coattention exp query query_length document document_length
          sentinel).2.2 n d h
        = ∑ q : Fin Q, Fmul
            ((coattention exp query query_length document document_length
                sentinel).1 n q h)
            (softmax_dim1 exp
              (maybe_mask_affinity
                (transpose021 (fun n d q =>
                  MFloat.val (unmasked_affinity document query n d q)))
                (some query_length) MFloat.negInf) n q d)) :=
  ⟨fun _ _ _ => rfl, fun _ _ _ => rfl, fun _ _ _ => rfl⟩

/-- C6: the sentinel flag of coattention is inert: for every input the
triple returned with sentinel = true is exactly the one returned with
sentinel = false (in particular in the first coattention pass of encode,
which passes sentinel = True), and the add_sentinel / remove_sentinel stubs
return Python None and perform no computation. -/
theorem C6_sentinel_flag_inert {N D Q H2 : ℕ} (exp : ℚ → ℚ)
    (query : T3 N Q H2) (query_length : Fin N → ℕ) (document : T3 N D H2)
    (document_length : Fin N → ℕ) :
    coattention exp query query_length document document_length true
      = coattention exp query query_length document document_length false
  ∧ (∀ (α : Type) (e : α), add_sentinel e = none ∧ remove_sentinel e = none) :=
  ⟨rfl, fun _ _ => ⟨rfl, rfl⟩⟩

/-- C5: in query_document_encoder the dense projection with tanh activation
(square on the feature axis: units = H + H, the last-axis size of its input)
is applied to the query branch only: the query output is denseAct applied to
the concatenated bidirectional outputs of the query pass, the document
output is exactly the concatenation of the forward and backward outputs of
the document pass, and the document output is invariant under the dense
layer parameters and activation. -/
theorem C5_dense_projection_on_query_only {St : Type} {N Q D R H : ℕ}
    (cell_fw : Cell St R H) (s0_fw : St) (cell_bw : Cell St R H) (s0_bw : St)
    (tanhA : ℚ → ℚ) (W : Fin (H + H) → Fin (H + H) → ℚ) (b : Fin (H + H) → ℚ)
    (query : T3 N Q R) (query_length : Fin N → ℕ)
    (document : T3 N D R) (document_length : Fin N → ℕ) :
    (query_document_encoder cell_fw s0_fw cell_bw s0_bw tanhA W b
        query query_length document document_length).1
      = denseAct tanhA W b
          (concatFeat
            (bidirectional_dynamic_rnn cell_fw s0_fw cell_bw s0_bw
              query query_length).1
            (bidirectional_dynamic_rnn cell_fw s0_fw cell_bw s0_bw
              query query_length).2)
  ∧ (query_document_encoder cell_fw s0_fw cell_bw s0_bw tanhA W b
        query query_length document document_length).2
      = concatFeat
          (bidirectional_dynamic_rnn cell_fw s0_fw cell_bw s0_bw
            document document_length).1
          (bidirectional_dynamic_rnn cell_fw s0_fw cell_bw s0_bw
            document document_length).2
  ∧ (∀ (tanhB : ℚ → ℚ) (W2 : Fin (H + H) → Fin (H + H) → ℚ)
        (b2 : Fin (H + H) → ℚ),
      (query_document_encoder cell_fw s0_fw cell_bw s0_bw tanhB W2 b2
          query query_length document document_length).2
        = (query_document_encoder cell_fw s0_fw cell_bw s0_bw tanhA W b
            query query_length document document_length).2) :=
  ⟨rfl, rfl, fun _ _ _ => rfl⟩

/-- C9: within one query_document_encoder call the same forward and backward
cells (the same parameter objects) drive both the query pass and the
document pass; consequently, on identical query and document inputs with
identical lengths the document encoding equals the pre-projection query
value, and the query output is exactly the tanh dense projection of that
document encoding: the two branches differ only by the query-only
projection. -/
theorem C9_shared_cells_between_passes {St : Type} {N T R H : ℕ}
    (cell_fw : Cell St R H) (s0_fw : St) (cell_bw : Cell St R H) (s0_bw : St)
    (tanhA : ℚ → ℚ) (W : Fin (H + H) → Fin (H + H) → ℚ) (b : Fin (H + H) → ℚ)
    (x : T3 N T R) (len : Fin N → ℕ) :
    (query_document_encoder cell_fw s0_fw cell_bw s0_bw tanhA W b
        x len x len).2
      = concatFeat
          (bidirectional_dynamic_rnn cell_fw s0_fw cell_bw s0_bw x len).1
          (bidirectional_dynamic_rnn cell_fw s0_fw cell_bw s0_bw x len).2
  ∧ (query_document_encoder cell_fw s0_fw cell_bw s0_bw tanhA W b
        x len x len).1
      = denseAct tanhA W b
          ((query_document_encoder cell_fw s0_fw cell_bw s0_bw tanhA W b
              x len x len).2) :=
  ⟨rfl, rfl⟩

/-- C4 counterexample: at N = 1, D = 3, Fdim = 2 the claim fails: decode is
claimed to return logits of shape [N, D] = [1, 3] (D is not 1), but
tf.squeeze with no axis argument also removes the leading batch dimension of
size 1, so the logit shape is [3]. -/
theorem C4_decode_shape_counterexample :
    decode_logit_shape 1 3 2 = [3] ∧ decode_logit_shape 1 3 2 ≠ [1, 3] := by
  constructor
  · decide
  · decide

/-- C4 amended: decode returns start and end logits whose common shape is
[N, D] with every size-1 axis removed by tf.squeeze, not only the trailing
one: [N, D] when N >= 2 and D >= 2; [N] when D = 1 and N >= 2; [D] when
N = 1 and D >= 2; the scalar shape [] when N = D = 1. -/
theorem C4_decode_shapes_amended (N D Fdim : ℕ) :
    decode_shapes (N + 2) (D + 2) Fdim = ([N + 2, D + 2], [N + 2, D + 2])
  ∧ decode_shapes (N + 2) 1 Fdim = ([N + 2], [N + 2])
  ∧ decode_shapes 1 (D + 2) Fdim = ([D + 2], [D + 2])
  ∧ decode_shapes 1 1 Fdim = ([], []) := by
  refine ⟨?_, ?_, ?_, ?_⟩ <;>
    simp [decode_shapes, decode_logit_shape, squeeze_shape, dense_shape,
      List.filter]

theorem coattention_fst_eq {N D Q H2 : ℕ} (exp : ℚ → ℚ) (query : T3 N Q H2)
    (query_length : Fin N → ℕ) (document : T3 N D H2)
    (document_length : Fin N → ℕ) (sentinel : Bool) :
    (coattention exp query query_length document document_length sentinel).1
      = summary_q exp document query document_length := rfl

theorem coattention_snd_fst_eq {N D Q H2 : ℕ} (exp : ℚ → ℚ)
    (query : T3 N Q H2) (query_length : Fin N → ℕ) (document : T3 N D H2)
    (document_length : Fin N → ℕ) (sentinel : Bool) :
    (coattention exp query query_length document document_length sentinel).2.1
      = summary_d exp document query query_length := rfl

/-- C10: inside coattention, summary_q (built from attention_p) does not
depend on query_length and summary_d (built from attention_q) does not
depend on document_length (nor does either depend on the sentinel flag);
attention columns at padded positions of the non-masked axis (query
positions q >= query_length n for attention_p, document positions
d >= document_length n for attention_q) are still fully normalised to 1;
and at a concrete instance (N = D = Q = H2 = 1, query_length 0, document
entries 1) the summary_q entry at the padded query position 0 is 1, not 0:
outputs are not zeroed beyond the true lengths. -/
theorem C10_no_masking_of_output_positions {N D Q H2 : ℕ} (exp : ℚ → ℚ)
    (hexp : ∀ x : ℚ, 0 < exp x) (query : T3 N Q H2) (document : T3 N D H2) :
    (∀ (ql ql' dl : Fin N → ℕ) (s s' : Bool),
        (coattention exp query ql document dl s).1
          = (coattention exp query ql' document dl s').1)
  ∧ (∀ (ql dl dl' : Fin N → ℕ) (s s' : Bool),
        (coattention exp query ql document dl s).2.1
          = (coattention exp query ql document dl' s').2.1)
  ∧ (∀ (ql dl : Fin N → ℕ) (n : Fin N) (q : Fin Q),
        ql n ≤ (q : ℕ) → 0 < D → 1 ≤ dl n →
        (∑ d : Fin D, attention_p exp document query dl n d q)
          = NFloat.val 1)
  ∧ (∀ (ql dl : Fin N → ℕ) (n : Fin N) (d : Fin D),
        dl n ≤ (d : ℕ) → 0 < Q → 1 ≤ ql n →
        (∑ q : Fin Q, attention_q exp document query ql n q d)
          = NFloat.val 1)
  ∧ (@summary_q 1 1 1 1 exp (fun _ _ _ => 1) (fun _ _ _ => 0) (fun _ => 1)
        0 0 0 = NFloat.val 1
      ∧ (fun _ : Fin 1 => 0) (0 : Fin 1) ≤ ((0 : Fin 1) : ℕ)
      ∧ NFloat.val (1 : ℚ) ≠ NFloat.val 0) := by
  have haff : @affinity 1 1 1 1 (fun _ _ _ => 1) (fun _ _ _ => 0)
      (fun _ => 1) 0 0 0 = MFloat.val 0 := by
    rw [affinity_unmasked _ _ _ _ _ _ (by decide)]
    simp [unmasked_affinity]
  have hden : (∑ k : Fin 1, expM exp (@affinity 1 1 1 1 (fun _ _ _ => 1)
      (fun _ _ _ => 0) (fun _ => 1) 0 k 0)) = exp 0 := by
    rw [Fin.sum_univ_one, haff]
    rfl
  have hone : @attention_p 1 1 1 1 exp (fun _ _ _ => 1) (fun _ _ _ => 0)
      (fun _ => 1) 0 0 0 = NFloat.val 1 := by
    simp only [attention_p, softmax_dim1]
    rw [hden, haff, if_neg (ne_of_gt (hexp 0))]
    simp only [expM]
    rw [div_self (ne_of_gt (hexp 0))]
  refine ⟨?_, ?_, ?_, ?_, ?_, ?_, ?_⟩
  · intro ql ql' dl s s'
    exact (coattention_fst_eq exp query ql document dl s).trans
      (coattention_fst_eq exp query ql' document dl s').symm
  · intro ql dl dl' s s'
    exact (coattention_snd_fst_eq exp query ql document dl s).trans
      (coattention_snd_fst_eq exp query ql document dl' s').symm
  · intro ql dl n q _ hD hdl
    exact softmax_dim1_col_sum exp _ n q
      (ne_of_gt (attention_p_denom_pos exp hexp document query dl n q hD hdl))
  · intro ql dl n d _ hQ hql
    exact softmax_dim1_col_sum exp _ n d
      (ne_of_gt (attention_q_denom_pos exp hexp document query ql n d hQ hql))
  · simp only [summary_q]
    rw [Fin.sum_univ_one, hone]
    show NFloat.val (1 * 1) = NFloat.val 1
    rw [one_mul]
  · exact Nat.le_refl 0
  · intro hcontra
    exact one_ne_zero (NFloat.val.inj hcontra)

/-- C10 witness: at exp = 1, zero query and document tensors, the padded
attention_p column still sums to 1, and the concrete summary_q instance at
the padded query position evaluates to 1. -/
theorem C10_no_masking_of_output_positions_witness :
    (∀ x : ℚ, 0 < (fun _ : ℚ => (1 : ℚ)) x)
  ∧ (fun _ : Fin 1 => 0) (0 : Fin 1) ≤ ((0 : Fin 1) : ℕ)
  ∧ (0 : ℕ) < 1
  ∧ 1 ≤ (fun _ : Fin 1 => 1) (0 : Fin 1)
  ∧ ((∑ d : Fin 1, @attention_p 1 1 1 1 (fun _ : ℚ => 1) (fun _ _ _ => 0)
        (fun _ _ _ => 0) (fun _ => 1) 0 d 0) = NFloat.val 1)
  ∧ @summary_q 1 1 1 1 (fun _ : ℚ => 1) (fun _ _ _ => 1) (fun _ _ _ => 0)
      (fun _ => 1) 0 0 0 = NFloat.val 1 :=
  ⟨fun _ => one_pos, Nat.le_refl 0, one_pos, le_refl 1,
    (@C10_no_masking_of_output_positions 1 1 1 1 (fun _ : ℚ => 1)
        (fun _ => one_pos) (fun _ _ _ => 0) (fun _ _ _ => 0)).2.2.1
      (fun _ => 0) (fun _ => 1) 0 0 (Nat.le_refl 0) one_pos (le_refl 1),
    ((@C10_no_masking_of_output_positions 1 1 1 1 (fun _ : ℚ => 1)
        (fun _ => one_pos) (fun _ _ _ => 0) (fun _ _ _ => 0)).2.2.2.2).1⟩
